import Mathlib

/-!
Shallow embedding of `src/app/transcribe/args.py` (configuration resolution
and batch-task dispatch for the Transcribe application).

The Python module manipulates a nested configuration dictionary
(section name → key → value), merges command-line arguments into it
(`update_args_config`), binds audio devices from the effective configuration
(`update_audio_devices`), persists an API key (`save_api_key`) and dispatches
one-shot batch actions (`handle_args_batch_tasks`).

Modelling decisions:
- A configuration is an association list of sections, each an association
  list of key/value pairs; `configSetIn` models Python's
  `config[sec][key] = v` (a `KeyError` on a missing section is `none`;
  assignment to a missing key inserts it).
- Python values occurring here are strings, booleans and integers (`Val`).
- `sys.exit(n)` and uncaught exceptions are modelled by the `Outcome` type;
  an uncaught exception terminates the CPython process with a traceback
  (`Outcome.crashed`), distinct from an explicit `sys.exit`.
- External collaborators (yaml loading, `os.path.getsize`, the STT engine)
  are inputs to the model (`BatchEnv`), since their code is out of scope.
-/

inductive Val where
  | str : String → Val
  | bool : Bool → Val
  | int : Int → Val
deriving DecidableEq, Repr

abbrev ConfigSection := List (String × Val)

abbrev Config := List (String × ConfigSection)

/-- Lookup of a key in a section (first match), as in a Python dict read. -/
def sectionGet : ConfigSection → String → Option Val
  | [], _ => none
  | (k', v) :: rest, k => if k' = k then some v else sectionGet rest k

/-- Python dict assignment `sec[k] = v`: replace the first binding of `k`,
or append a new binding when `k` is absent. -/
def sectionSet : ConfigSection → String → Val → ConfigSection
  | [], k, v => [(k, v)]
  | (k', v') :: rest, k, v =>
    if k' = k then (k, v) :: rest else (k', v') :: sectionSet rest k v

/-- Lookup of a section, as in `config[sec]` (before the inner access). -/
def lookupSection : Config → String → Option ConfigSection
  | [], _ => none
  | (s', sec) :: rest, s => if s' = s then some sec else lookupSection rest s

def hasSection (c : Config) (s : String) : Bool :=
  (lookupSection c s).isSome

/-- Read of `config[s][k]`; `none` models a `KeyError` at either level. -/
def configGet (c : Config) (s k : String) : Option Val :=
  (lookupSection c s).bind (fun sec => sectionGet sec k)

/-- Python's `config[s][k] = v`: fails (`KeyError`, modelled `none`) when the
section `s` is absent; never creates a section. -/
def configSetIn : Config → String → String → Val → Option Config
  | [], _, _, _ => none
  | (s', sec) :: rest, s, k, v =>
    if s' = s then some ((s', sectionSet sec k v) :: rest)
    else (configSetIn rest s k v).map (fun r => (s', sec) :: r)

theorem sectionGet_sectionSet (sec : ConfigSection) (k k' : String) (v : Val) :
    sectionGet (sectionSet sec k v) k' = if k' = k then some v else sectionGet sec k' := by
  induction sec with
  | nil =>
    by_cases h : k' = k
    · subst h; simp [sectionSet, sectionGet]
    · simp [sectionSet, sectionGet, h, Ne.symm h]
  | cons hd tl ih =>
    obtain ⟨k₀, v₀⟩ := hd
    by_cases h0 : k₀ = k
    · subst h0
      by_cases h : k' = k₀
      · subst h; simp [sectionSet, sectionGet]
      · simp [sectionSet, sectionGet, h, Ne.symm h]
    · by_cases h : k₀ = k'
      · subst h
        simp [sectionSet, sectionGet, h0]
      · simp [sectionSet, sectionGet, h0, h, ih]

theorem lookupSection_configSetIn {c c' : Config} {s k : String} {v : Val}
    (h : configSetIn c s k v = some c') (s' : String) :
    lookupSection c' s' =
      if s' = s then (lookupSection c s).map (fun sec => sectionSet sec k v)
      else lookupSection c s' := by
  induction c generalizing c' with
  | nil => simp [configSetIn] at h
  | cons hd rest ih =>
    obtain ⟨s₀, sec₀⟩ := hd
    by_cases h0 : s₀ = s
    · subst h0
      simp only [configSetIn, if_true, eq_self_iff_true, Option.some.injEq] at h
      subst h
      by_cases h' : s' = s₀
      · subst h'
        simp [lookupSection]
      · simp [lookupSection, h', Ne.symm h']
    · simp only [configSetIn, if_neg h0, Option.map_eq_some'] at h
      obtain ⟨r, hr, hc⟩ := h
      subst hc
      by_cases h' : s' = s₀
      · subst h'
        simp [lookupSection, h0]
      · simp [lookupSection, Ne.symm h', h0, ih hr]

theorem configSetIn_isSome (c : Config) (s k : String) (v : Val) :
    (configSetIn c s k v).isSome = hasSection c s := by
  induction c with
  | nil => simp [configSetIn, hasSection, lookupSection]
  | cons hd rest ih =>
    obtain ⟨s₀, sec₀⟩ := hd
    by_cases h0 : s₀ = s <;> simp [configSetIn, hasSection, lookupSection, h0]
    simpa [hasSection] using ih

theorem configGet_configSetIn {c c' : Config} {s k : String} {v : Val}
    (h : configSetIn c s k v = some c') (s' k' : String) :
    configGet c' s' k' =
      if s' = s ∧ k' = k then some v else configGet c s' k' := by
  unfold configGet
  rw [lookupSection_configSetIn h s']
  by_cases hs : s' = s
  · subst hs
    have hsec : (lookupSection c s').isSome := by
      have hiso := configSetIn_isSome c s' k v
      rw [h] at hiso
      simpa [hasSection] using hiso.symm
    obtain ⟨sec, hsec⟩ := Option.isSome_iff_exists.mp hsec
    rw [hsec]
    by_cases hk : k' = k <;> simp [hk, sectionGet_sectionSet]
  · simp [hs]

theorem hasSection_configSetIn {c c' : Config} {s k : String} {v : Val}
    (h : configSetIn c s k v = some c') (s' : String) :
    hasSection c' s' = hasSection c s' := by
  unfold hasSection
  rw [lookupSection_configSetIn h s']
  by_cases hs : s' = s
  · subst hs
    have hsec : (lookupSection c s').isSome := by
      have hiso := configSetIn_isSome c s' k v
      rw [h] at hiso
      simpa [hasSection] using hiso.symm
    obtain ⟨sec, hsec⟩ := Option.isSome_iff_exists.mp hsec
    simp [hsec]
  · simp [hs]

/-- The parsed command-line arguments (`argparse.Namespace` produced by
`create_args`). `none` models an option left at a `None` default; note that
`--model` has argparse default `'base'`, so a run with no flags yields
`model = some "base"` (see `defaultArgs`). -/
structure Args where
  api : Bool
  experimental : Bool
  speech_to_text : String
  chat_inference_provider : String
  api_key : Option String
  save_api_key : Option String
  transcribe : Option String
  output_file : Option String
  model : Option String
  list_devices : Bool
  mic_device_index : Option Int
  speaker_device_index : Option Int
  disable_mic : Bool
  disable_speaker : Bool
deriving DecidableEq, Repr

/-- The `argparse` defaults of `create_args`: what `parse_args` returns when
no command-line flag is given. -/
def defaultArgs : Args where
  api := false
  experimental := false
  speech_to_text := "whisper"
  chat_inference_provider := "openai"
  api_key := none
  save_api_key := none
  transcribe := none
  output_file := none
  model := some "base"
  list_devices := false
  mic_device_index := none
  speaker_device_index := none
  disable_mic := false
  disable_speaker := false

/-- Lines 109-110: `if args.api_key is not None: config['OpenAI']['api_key'] = args.api_key`. -/
def mergeApiKey (a : Option String) (c : Config) : Option Config :=
  match a with
  | some key => configSetIn c "OpenAI" "api_key" (Val.str key)
  | none => some c

/-- Lines 112-117: both local model-file keys are set to `args.model` when it
is not `None`, and to `'base'` otherwise. -/
def mergeModel (m : Option String) (c : Config) : Option Config :=
  match m with
  | some tier =>
    (configSetIn c "OpenAI" "local_transcripton_model_file" (Val.str tier)).bind
      (fun c₁ => configSetIn c₁ "WhisperCpp" "local_transcripton_model_file" (Val.str tier))
  | none =>
    (configSetIn c "OpenAI" "local_transcripton_model_file" (Val.str "base")).bind
      (fun c₁ => configSetIn c₁ "WhisperCpp" "local_transcripton_model_file" (Val.str "base"))

/-- Lines 119-123, 128-129: `if args.<flag>: config['General'][<key>] = args.<flag>`
(the write only happens in the truthy branch, so the written value is `true`). -/
def mergeFlag (b : Bool) (key : String) (c : Config) : Option Config :=
  if b then configSetIn c "General" key (Val.bool b) else some c

/-- Lines 125-126, 131-132: `if args.<idx> is not None: config['General'][<key>] = int(args.<idx>)`. -/
def mergeIndex (idx : Option Int) (key : String) (c : Config) : Option Config :=
  match idx with
  | some i => configSetIn c "General" key (Val.int i)
  | none => some c

/-- Model of `update_args_config(args, config)` (lines 106-132), as the sequence of its
seven conditional writes; `none` models a `KeyError` on a missing section. -/
def update_args_config (args : Args) (c : Config) : Option Config :=
  (mergeApiKey args.api_key c).bind fun c₁ =>
  (mergeModel args.model c₁).bind fun c₂ =>
  (mergeFlag args.api "use_api" c₂).bind fun c₃ =>
  (mergeFlag args.disable_mic "disable_mic" c₃).bind fun c₄ =>
  (mergeIndex args.mic_device_index "mic_device_index" c₄).bind fun c₅ =>
  (mergeFlag args.disable_speaker "disable_speaker" c₅).bind fun c₆ =>
  mergeIndex args.speaker_device_index "speaker_device_index" c₆

/-- Effect of the api-key write on a single read location. -/
def overwriteApiKey (a : Option String) (s k : String) (prev : Option Val) : Option Val :=
  if s = "OpenAI" ∧ k = "api_key" then
    match a with
    | some key => some (Val.str key)
    | none => prev
  else prev

/-- Effect of the model write on a single read location. -/
def overwriteModel (m : Option String) (s k : String) (prev : Option Val) : Option Val :=
  if (s = "OpenAI" ∨ s = "WhisperCpp") ∧ k = "local_transcripton_model_file" then
    some (Val.str (m.getD "base"))
  else prev

/-- Effect of a conditional boolean-flag write on a single read location. -/
def overwriteFlag (b : Bool) (key : String) (s k : String) (prev : Option Val) : Option Val :=
  if b = true ∧ s = "General" ∧ k = key then some (Val.bool b) else prev

/-- Effect of a conditional device-index write on a single read location. -/
def overwriteIndex (idx : Option Int) (key : String) (s k : String) (prev : Option Val) : Option Val :=
  if s = "General" ∧ k = key then
    match idx with
    | some i => some (Val.int i)
    | none => prev
  else prev

/-- What a successful merge leaves at section `s`, key `k`. -/
def mergedGet (args : Args) (c : Config) (s k : String) : Option Val :=
  overwriteIndex args.speaker_device_index "speaker_device_index" s k
   (overwriteFlag args.disable_speaker "disable_speaker" s k
    (overwriteIndex args.mic_device_index "mic_device_index" s k
     (overwriteFlag args.disable_mic "disable_mic" s k
      (overwriteFlag args.api "use_api" s k
       (overwriteModel args.model s k
        (overwriteApiKey args.api_key s k (configGet c s k)))))))

theorem mergeApiKey_get {a : Option String} {c c' : Config}
    (h : mergeApiKey a c = some c') (s k : String) :
    configGet c' s k = overwriteApiKey a s k (configGet c s k) := by
  cases a with
  | none =>
    simp only [mergeApiKey, Option.some.injEq] at h
    subst h
    simp [overwriteApiKey]
  | some key =>
    simp only [mergeApiKey] at h
    rw [configGet_configSetIn h s k]
    simp [overwriteApiKey]

theorem mergeModel_get {m : Option String} {c c' : Config}
    (h : mergeModel m c = some c') (s k : String) :
    configGet c' s k = overwriteModel m s k (configGet c s k) := by
  cases m with
  | none =>
    simp only [mergeModel, Option.bind_eq_some] at h
    obtain ⟨c₁, h₁, h₂⟩ := h
    rw [configGet_configSetIn h₂ s k, configGet_configSetIn h₁ s k, overwriteModel]
    by_cases hk : k = "local_transcripton_model_file" <;>
      by_cases hs1 : s = "OpenAI" <;> by_cases hs2 : s = "WhisperCpp" <;>
        simp_all
  | some tier =>
    simp only [mergeModel, Option.bind_eq_some] at h
    obtain ⟨c₁, h₁, h₂⟩ := h
    rw [configGet_configSetIn h₂ s k, configGet_configSetIn h₁ s k, overwriteModel]
    by_cases hk : k = "local_transcripton_model_file" <;>
      by_cases hs1 : s = "OpenAI" <;> by_cases hs2 : s = "WhisperCpp" <;>
        simp_all

theorem mergeFlag_get {b : Bool} {key : String} {c c' : Config}
    (h : mergeFlag b key c = some c') (s k : String) :
    configGet c' s k = overwriteFlag b key s k (configGet c s k) := by
  cases b with
  | false =>
    simp only [mergeFlag, if_neg (Bool.false_ne_true), Option.some.injEq] at h
    subst h
    simp [overwriteFlag]
  | true =>
    simp only [mergeFlag, if_true] at h
    rw [overwriteFlag, configGet_configSetIn h s k]
    simp

theorem mergeIndex_get {idx : Option Int} {key : String} {c c' : Config}
    (h : mergeIndex idx key c = some c') (s k : String) :
    configGet c' s k = overwriteIndex idx key s k (configGet c s k) := by
  cases idx with
  | none =>
    simp only [mergeIndex, Option.some.injEq] at h
    subst h
    simp [overwriteIndex]
  | some i =>
    simp only [mergeIndex] at h
    rw [configGet_configSetIn h s k]
    simp [overwriteIndex]

/-- Master characterization: a successful `update_args_config` leaves at each
location exactly the layered-overwrite value `mergedGet`. -/
theorem update_args_config_get {args : Args} {c c' : Config}
    (h : update_args_config args c = some c') (s k : String) :
    configGet c' s k = mergedGet args c s k := by
  simp only [update_args_config, Option.bind_eq_some] at h
  obtain ⟨c₁, h₁, c₂, h₂, c₃, h₃, c₄, h₄, c₅, h₅, c₆, h₆, h₇⟩ := h
  rw [mergedGet, mergeIndex_get h₇ s k, mergeFlag_get h₆ s k, mergeIndex_get h₅ s k,
      mergeFlag_get h₄ s k, mergeFlag_get h₃ s k, mergeModel_get h₂ s k,
      mergeApiKey_get h₁ s k]

theorem configSetIn_eq_none {c : Config} {s : String} (h : hasSection c s = false)
    (k : String) (v : Val) : configSetIn c s k v = none := by
  have hiso := configSetIn_isSome c s k v
  rw [h] at hiso
  exact Option.not_isSome_iff_eq_none.mp (by simp [hiso])

theorem configSetIn_exists {c : Config} {s : String} (h : hasSection c s = true)
    (k : String) (v : Val) : ∃ c', configSetIn c s k v = some c' := by
  have hiso := configSetIn_isSome c s k v
  rw [h] at hiso
  exact Option.isSome_iff_exists.mp hiso

theorem mergeApiKey_hasSection {a : Option String} {c c' : Config}
    (h : mergeApiKey a c = some c') (s : String) :
    hasSection c' s = hasSection c s := by
  cases a with
  | none =>
    simp only [mergeApiKey, Option.some.injEq] at h
    subst h
    rfl
  | some key =>
    simp only [mergeApiKey] at h
    exact hasSection_configSetIn h s

theorem mergeModel_hasSection {m : Option String} {c c' : Config}
    (h : mergeModel m c = some c') (s : String) :
    hasSection c' s = hasSection c s := by
  cases m with
  | none =>
    simp only [mergeModel, Option.bind_eq_some] at h
    obtain ⟨c₁, h₁, h₂⟩ := h
    rw [hasSection_configSetIn h₂ s, hasSection_configSetIn h₁ s]
  | some tier =>
    simp only [mergeModel, Option.bind_eq_some] at h
    obtain ⟨c₁, h₁, h₂⟩ := h
    rw [hasSection_configSetIn h₂ s, hasSection_configSetIn h₁ s]

theorem mergeFlag_hasSection {b : Bool} {key : String} {c c' : Config}
    (h : mergeFlag b key c = some c') (s : String) :
    hasSection c' s = hasSection c s := by
  cases b with
  | false =>
    simp only [mergeFlag, if_neg (Bool.false_ne_true), Option.some.injEq] at h
    subst h
    rfl
  | true =>
    simp only [mergeFlag, if_true] at h
    exact hasSection_configSetIn h s

theorem mergeIndex_hasSection {idx : Option Int} {key : String} {c c' : Config}
    (h : mergeIndex idx key c = some c') (s : String) :
    hasSection c' s = hasSection c s := by
  cases idx with
  | none =>
    simp only [mergeIndex, Option.some.injEq] at h
    subst h
    rfl
  | some i =>
    simp only [mergeIndex] at h
    exact hasSection_configSetIn h s

theorem mergeApiKey_total (a : Option String) {c : Config}
    (h : hasSection c "OpenAI" = true) : ∃ c', mergeApiKey a c = some c' := by
  cases a with
  | none => exact ⟨c, rfl⟩
  | some key =>
    obtain ⟨c', hc⟩ := configSetIn_exists h "api_key" (Val.str key)
    exact ⟨c', hc⟩

theorem mergeModel_total (m : Option String) {c : Config}
    (h1 : hasSection c "OpenAI" = true) (h2 : hasSection c "WhisperCpp" = true) :
    ∃ c', mergeModel m c = some c' := by
  cases m with
  | none =>
    obtain ⟨c₁, e₁⟩ := configSetIn_exists h1 "local_transcripton_model_file" (Val.str "base")
    have h2' : hasSection c₁ "WhisperCpp" = true := by
      rw [hasSection_configSetIn e₁]
      exact h2
    obtain ⟨c₂, e₂⟩ := configSetIn_exists h2' "local_transcripton_model_file" (Val.str "base")
    exact ⟨c₂, by simp [mergeModel, e₁, e₂]⟩
  | some tier =>
    obtain ⟨c₁, e₁⟩ := configSetIn_exists h1 "local_transcripton_model_file" (Val.str tier)
    have h2' : hasSection c₁ "WhisperCpp" = true := by
      rw [hasSection_configSetIn e₁]
      exact h2
    obtain ⟨c₂, e₂⟩ := configSetIn_exists h2' "local_transcripton_model_file" (Val.str tier)
    exact ⟨c₂, by simp [mergeModel, e₁, e₂]⟩

theorem mergeFlag_total (b : Bool) (key : String) {c : Config}
    (h : hasSection c "General" = true) : ∃ c', mergeFlag b key c = some c' := by
  cases b with
  | false => exact ⟨c, rfl⟩
  | true =>
    obtain ⟨c', hc⟩ := configSetIn_exists h key (Val.bool true)
    exact ⟨c', by simp [mergeFlag, hc]⟩

theorem mergeIndex_total (idx : Option Int) (key : String) {c : Config}
    (h : hasSection c "General" = true) : ∃ c', mergeIndex idx key c = some c' := by
  cases idx with
  | none => exact ⟨c, rfl⟩
  | some i =>
    obtain ⟨c', hc⟩ := configSetIn_exists h key (Val.int i)
    exact ⟨c', hc⟩

/-- The merge succeeds on every store holding the three touched sections. -/
theorem update_args_config_total (args : Args) {c : Config}
    (h1 : hasSection c "OpenAI" = true) (h2 : hasSection c "WhisperCpp" = true)
    (h3 : hasSection c "General" = true) :
    ∃ c', update_args_config args c = some c' := by
  obtain ⟨c₁, e₁⟩ := mergeApiKey_total args.api_key h1
  have q₁ := mergeApiKey_hasSection e₁
  obtain ⟨c₂, e₂⟩ := mergeModel_total args.model (by rw [q₁]; exact h1) (by rw [q₁]; exact h2)
  have q₂ := mergeModel_hasSection e₂
  have g₂ : hasSection c₂ "General" = true := by rw [q₂, q₁]; exact h3
  obtain ⟨c₃, e₃⟩ := mergeFlag_total args.api "use_api" g₂
  have g₃ : hasSection c₃ "General" = true := by rw [mergeFlag_hasSection e₃]; exact g₂
  obtain ⟨c₄, e₄⟩ := mergeFlag_total args.disable_mic "disable_mic" g₃
  have g₄ : hasSection c₄ "General" = true := by rw [mergeFlag_hasSection e₄]; exact g₃
  obtain ⟨c₅, e₅⟩ := mergeIndex_total args.mic_device_index "mic_device_index" g₄
  have g₅ : hasSection c₅ "General" = true := by rw [mergeIndex_hasSection e₅]; exact g₄
  obtain ⟨c₆, e₆⟩ := mergeFlag_total args.disable_speaker "disable_speaker" g₅
  have g₆ : hasSection c₆ "General" = true := by rw [mergeFlag_hasSection e₆]; exact g₅
  obtain ⟨c₇, e₇⟩ := mergeIndex_total args.speaker_device_index "speaker_device_index" g₆
  exact ⟨c₇, by simp [update_args_config, e₁, e₂, e₃, e₄, e₅, e₆, e₇]⟩

/-- The merge never creates or removes a section. -/
theorem update_args_config_hasSection {args : Args} {c c' : Config}
    (h : update_args_config args c = some c') (s : String) :
    hasSection c' s = hasSection c s := by
  simp only [update_args_config, Option.bind_eq_some] at h
  obtain ⟨c₁, h₁, c₂, h₂, c₃, h₃, c₄, h₄, c₅, h₅, c₆, h₆, h₇⟩ := h
  rw [mergeIndex_hasSection h₇ s, mergeFlag_hasSection h₆ s, mergeIndex_hasSection h₅ s,
      mergeFlag_hasSection h₄ s, mergeFlag_hasSection h₃ s, mergeModel_hasSection h₂ s,
      mergeApiKey_hasSection h₁ s]

theorem mergeModel_noWhisper {c : Config} (h : hasSection c "WhisperCpp" = false)
    (m : Option String) : mergeModel m c = none := by
  cases m with
  | none =>
    simp only [mergeModel]
    cases e : configSetIn c "OpenAI" "local_transcripton_model_file" (Val.str "base") with
    | none => rfl
    | some c₁ =>
      have hw : hasSection c₁ "WhisperCpp" = false := by
        rw [hasSection_configSetIn e]
        exact h
      simp [configSetIn_eq_none hw]
  | some tier =>
    simp only [mergeModel]
    cases e : configSetIn c "OpenAI" "local_transcripton_model_file" (Val.str tier) with
    | none => rfl
    | some c₁ =>
      have hw : hasSection c₁ "WhisperCpp" = false := by
        rw [hasSection_configSetIn e]
        exact h
      simp [configSetIn_eq_none hw]

/-- A store without an `OpenAI` section makes the merge raise (the model write
touches it unconditionally). -/
theorem update_args_config_noOpenAI {args : Args} {c : Config}
    (h : hasSection c "OpenAI" = false) : update_args_config args c = none := by
  cases ha : args.api_key with
  | some key => simp [update_args_config, mergeApiKey, ha, configSetIn_eq_none h]
  | none =>
    cases hm : args.model <;>
      simp [update_args_config, mergeApiKey, mergeModel, ha, hm, configSetIn_eq_none h]

/-- A store without a `WhisperCpp` section makes the merge raise. -/
theorem update_args_config_noWhisper {args : Args} {c : Config}
    (h : hasSection c "WhisperCpp" = false) : update_args_config args c = none := by
  unfold update_args_config
  cases e₁ : mergeApiKey args.api_key c with
  | none => rfl
  | some c₁ =>
    have p₁ : hasSection c₁ "WhisperCpp" = false := by
      rw [mergeApiKey_hasSection e₁]
      exact h
    simp [mergeModel_noWhisper p₁]

theorem mergeFlag_noGeneral {c : Config} (h : hasSection c "General" = false)
    (b : Bool) (key : String) : mergeFlag b key c = if b then none else some c := by
  cases b <;> simp [mergeFlag, configSetIn_eq_none h]

theorem mergeIndex_noGeneral {c : Config} (h : hasSection c "General" = false)
    (idx : Option Int) (key : String) :
    mergeIndex idx key c = match idx with | some _ => none | none => some c := by
  cases idx <;> simp [mergeIndex, configSetIn_eq_none h]

/-- On a store with `OpenAI` and `WhisperCpp` but no `General` section, the
merge succeeds exactly when no `General`-bound request field is set. -/
theorem update_args_config_noGeneral_iff (args : Args) {c : Config}
    (h1 : hasSection c "OpenAI" = true) (h2 : hasSection c "WhisperCpp" = true)
    (h3 : hasSection c "General" = false) :
    (update_args_config args c).isSome = true ↔
      (args.api = false ∧ args.disable_mic = false ∧ args.mic_device_index = none ∧
       args.disable_speaker = false ∧ args.speaker_device_index = none) := by
  obtain ⟨c₁, e₁⟩ := mergeApiKey_total args.api_key h1
  have q₁ := mergeApiKey_hasSection e₁
  obtain ⟨c₂, e₂⟩ := mergeModel_total args.model (by rw [q₁]; exact h1) (by rw [q₁]; exact h2)
  have g₂ : hasSection c₂ "General" = false := by
    rw [mergeModel_hasSection e₂, q₁]
    exact h3
  unfold update_args_config
  rw [e₁]
  simp only [Option.some_bind]
  rw [e₂]
  simp only [Option.some_bind]
  cases hapi : args.api <;> cases hdm : args.disable_mic <;>
    cases hmi : args.mic_device_index <;> cases hds : args.disable_speaker <;>
      cases hsi : args.speaker_device_index <;>
        simp [mergeFlag_noGeneral g₂, mergeIndex_noGeneral g₂]

/-- Python exceptions relevant to this module. `yaml.load` raises a
`yaml.YAMLError` (e.g. `ScannerError`) on a malformed document; `ImportError`
is the class the source's `except` clause names; `KeyError` arises from a
missing dict key; `FileNotFoundError` from `os.path.getsize` on a missing
path. -/
inductive PyErr where
  | importError : PyErr
  | yamlError : PyErr
  | keyError : PyErr
  | fileNotFoundError : PyErr
deriving DecidableEq, Repr

/-- How a dispatched call ends: an explicit `sys.exit(code)`, an uncaught
exception (CPython then terminates with a traceback and a nonzero status),
or a normal return to the caller. -/
inductive Outcome where
  | exited : Nat → Outcome
  | crashed : PyErr → Outcome
  | returned : Outcome
deriving DecidableEq, Repr

/-- Observable behaviour of `save_api_key` (lines 151-165). -/
structure SaveResult where
  /-- Whether the `'Failed to load yaml file: …'` / `'Error: …'` report ran. -/
  printedFailMsg : Bool
  /-- The override mapping handed to `yml.add_override_value`, when reached. -/
  persisted : Option Config
  outcome : Outcome
deriving DecidableEq, Repr

/-- Model of `save_api_key(args)` (lines 151-165). `loadResult` is the outcome of
`yaml.load` on the override file (the preceding `open` is taken to succeed;
the claims under study concern the parse step). The `try` block catches only
`ImportError`: any other exception — in particular the `yaml.YAMLError` a
malformed file raises — propagates out of the function. On a parsed mapping
the function sets `['OpenAI']['api_key']` (a `KeyError` when the section is
absent), persists the result and returns normally. -/
def save_api_key (value : String) (loadResult : Except PyErr Config) : SaveResult :=
  match loadResult with
  | Except.error PyErr.importError =>
    { printedFailMsg := true, persisted := none, outcome := Outcome.exited 1 }
  | Except.error e =>
    { printedFailMsg := false, persisted := none, outcome := Outcome.crashed e }
  | Except.ok cfg =>
    match configSetIn cfg "OpenAI" "api_key" (Val.str value) with
    | none =>
      { printedFailMsg := false, persisted := none, outcome := Outcome.crashed PyErr.keyError }
    | some altered =>
      { printedFailMsg := false, persisted := some altered, outcome := Outcome.returned }

deriving instance DecidableEq for Except

/-- Results of the external collaborators consumed by
`handle_args_batch_tasks`: the yaml load inside `save_api_key`, the
`os.path.getsize` call, and the STT engine's transcription
(`results` is the raw `get_transcription` value, `none` for Python `None`;
`text` is what `process_response` returns for it). -/
structure BatchEnv where
  loadResult : Except PyErr Config
  getsizeResult : Except PyErr Nat
  results : Option String
  text : String
deriving DecidableEq, Repr

/-- Observable behaviour of one `handle_args_batch_tasks` invocation. -/
structure BatchTrace where
  /-- Whether `ar.print_detailed_audio_info()` ran (the list-devices action). -/
  listedDevices : Bool
  /-- Whether `save_api_key` ran, with its observed behaviour. -/
  saveRes : Option SaveResult
  /-- The transcribe branch was entered. -/
  transcribed : Bool
  /-- Output-file write, as (path, contents). -/
  wrote : Option (String × String)
  /-- The `'Error during Transcription!' / 'Please ensure … is an audio file.'`
  diagnostic ran. -/
  printedDiag : Bool
  outcome : Outcome
deriving DecidableEq, Repr

/-- Model of `handle_args_batch_tasks(args, global_vars)` (lines 67-103).
The initial `interactions.params(args)` telemetry call has no observable
effect modelled here. In the transcribe branch, the size report
(`os.path.getsize`) runs before the engine is invoked, so a missing input
file raises there; the optional 16-kHz conversion for `whisper.cpp` only
changes which path the engine reads, which is already folded into
`env.results` / `env.text`. -/
def handle_args_batch_tasks (args : Args) (env : BatchEnv) : BatchTrace :=
  if args.list_devices then
    { listedDevices := true, saveRes := none, transcribed := false, wrote := none,
      printedDiag := false, outcome := Outcome.exited 0 }
  else
    match args.save_api_key with
    | some v =>
      let r := save_api_key v env.loadResult
      let out := match r.outcome with
        | Outcome.returned => Outcome.exited 0
        | o => o
      { listedDevices := false, saveRes := some r, transcribed := false, wrote := none,
        printedDiag := false, outcome := out }
    | none =>
      match args.transcribe with
      | some _ =>
        let output_file := match args.output_file with
          | some f => f
          | none => "transcription.txt"
        match env.getsizeResult with
        | Except.error e =>
          { listedDevices := false, saveRes := none, transcribed := true, wrote := none,
            printedDiag := false, outcome := Outcome.crashed e }
        | Except.ok _ =>
          if env.results.isSome && 0 < env.text.length then
            { listedDevices := false, saveRes := none, transcribed := true,
              wrote := some (output_file, env.text ++ "\n"),
              printedDiag := false, outcome := Outcome.exited 0 }
          else
            { listedDevices := false, saveRes := none, transcribed := true, wrote := none,
              printedDiag := true, outcome := Outcome.exited 1 }
      | none =>
        { listedDevices := false, saveRes := none, transcribed := false, wrote := none,
          printedDiag := false, outcome := Outcome.returned }

/-- Number of one-shot actions a trace shows as executed. -/
def numActions (t : BatchTrace) : Nat :=
  (if t.listedDevices then 1 else 0) + (if t.saveRes.isSome then 1 else 0) +
    (if t.transcribed then 1 else 0)

/-- Python truthiness of the values occurring in the configuration. -/
def pyTruthy : Val → Bool
  | Val.str s => !(s == "")
  | Val.bool b => b
  | Val.int i => !(i == 0)

/-- Python `v != n` for an integer literal `n` (`bool` is an `int` subclass). -/
def pyNeInt (v : Val) (n : Int) : Bool :=
  match v with
  | Val.int i => !(i == n)
  | Val.bool b => !((if b then (1 : Int) else 0) == n)
  | Val.str _ => true

/-- Python `int(v)`; `none` models the `ValueError`/`TypeError` of an
unconvertible value. -/
def pyToInt : Val → Option Int
  | Val.int i => some i
  | Val.bool b => some (if b then 1 else 0)
  | Val.str s => s.toInt?

/-- Model of `update_audio_devices(global_vars, config)` (lines 135-148), returning the
`set_device` index calls issued for the microphone and for the speaker
(`none` models an uncaught `KeyError`/`ValueError`). For each device, the
index key is only read — and the bind call only issued — when the disable
flag reads falsy and the stored index is `!= -1`. -/
def update_audio_devices (c : Config) : Option (List Int × List Int) :=
  (configGet c "General" "disable_mic").bind fun dm =>
  (if !pyTruthy dm then
      (configGet c "General" "mic_device_index").bind fun mi =>
        if pyNeInt mi (-1) then (pyToInt mi).map (fun i => [i]) else some []
    else some []).bind fun micCalls =>
  (configGet c "General" "disable_speaker").bind fun ds =>
  (if !pyTruthy ds then
      (configGet c "General" "speaker_device_index").bind fun si =>
        if pyNeInt si (-1) then (pyToInt si).map (fun i => [i]) else some []
    else some []).bind fun spkCalls =>
  some (micCalls, spkCalls)

/-- Modelled from the spec: the persistence layer of
`tsutils.configuration.Config` (`add_override_value` and a fresh load of the
override store) is not part of `src/`; per §4.2/§3 of the specification the
override layer has round-trip fidelity — a fresh load after
`add_override_value(c)` yields exactly the persisted mapping `c`. -/
def freshLoadAfterSave (r : SaveResult) : Option Config :=
  r.persisted

/-- What the run as a whole wrote to the persisted override store: only the
save-api-key action ever calls `add_override_value`. -/
def persistedWrite (t : BatchTrace) : Option Config :=
  t.saveRes.bind (fun r => r.persisted)

/-- A sample store holding all three sections. -/
def storeA : Config :=
  [("OpenAI", [("api_key", Val.str "Z")]), ("WhisperCpp", []), ("General", [("x", Val.int 5)])]

/-- The result of merging `defaultArgs` onto `storeA`. -/
def storeA' : Config :=
  [("OpenAI", [("api_key", Val.str "Z"), ("local_transcripton_model_file", Val.str "base")]),
   ("WhisperCpp", [("local_transcripton_model_file", Val.str "base")]),
   ("General", [("x", Val.int 5)])]

/-- A sample store with a previously saved `use_api = true` override. -/
def storeB : Config :=
  [("OpenAI", []), ("WhisperCpp", []), ("General", [("use_api", Val.bool true)])]

/-- The result of merging `defaultArgs` onto `storeB`. -/
def storeB' : Config :=
  [("OpenAI", [("local_transcripton_model_file", Val.str "base")]),
   ("WhisperCpp", [("local_transcripton_model_file", Val.str "base")]),
   ("General", [("use_api", Val.bool true)])]

/-- C1: for every request and every store containing the `OpenAI` and
`WhisperCpp` sections, after the merge (`update_args_config`) both
`local_transcripton_model_file` keys equal the request's model value when the
model field is set, and `"base"` when it is absent, regardless of any value
previously stored for those keys. -/
theorem update_args_config_model_keys (args : Args) (c c' : Config)
    (hO : hasSection c "OpenAI" = true) (hW : hasSection c "WhisperCpp" = true)
    (h : update_args_config args c = some c') :
    (∀ m, args.model = some m →
      configGet c' "OpenAI" "local_transcripton_model_file" = some (Val.str m) ∧
      configGet c' "WhisperCpp" "local_transcripton_model_file" = some (Val.str m)) ∧
    (args.model = none →
      configGet c' "OpenAI" "local_transcripton_model_file" = some (Val.str "base") ∧
      configGet c' "WhisperCpp" "local_transcripton_model_file" = some (Val.str "base")) := by
  have h1 := update_args_config_get h "OpenAI" "local_transcripton_model_file"
  have h2 := update_args_config_get h "WhisperCpp" "local_transcripton_model_file"
  simp [mergedGet, overwriteIndex, overwriteFlag, overwriteModel, overwriteApiKey] at h1 h2
  constructor
  · intro m hm
    simp [hm] at h1 h2
    exact ⟨h1, h2⟩
  · intro hm
    simp [hm] at h1 h2
    exact ⟨h1, h2⟩

/-- Witness for C1 at a concrete request and store. -/
theorem update_args_config_model_keys_witness :
    configGet storeA' "OpenAI" "local_transcripton_model_file" = some (Val.str "base") ∧
    configGet storeA' "WhisperCpp" "local_transcripton_model_file" = some (Val.str "base") :=
  (update_args_config_model_keys defaultArgs storeA storeA'
    (by decide) (by decide) (by decide)).1 "base" rfl

/-- C7: merging a request with no field set (`defaultArgs`) leaves every key
of the store unchanged, except the two local-model-file keys, which are both
reset to `"base"`. -/
theorem update_args_config_default_frame (c c' : Config)
    (h : update_args_config defaultArgs c = some c') (s k : String) :
    configGet c' s k =
      if (s = "OpenAI" ∨ s = "WhisperCpp") ∧ k = "local_transcripton_model_file"
      then some (Val.str "base")
      else configGet c s k := by
  rw [update_args_config_get h s k]
  simp [mergedGet, overwriteIndex, overwriteFlag, overwriteModel, overwriteApiKey, defaultArgs]

/-- Witness for C7 at a concrete store and read location. -/
theorem update_args_config_default_frame_witness :
    configGet storeA' "General" "x" = configGet storeA "General" "x" := by
  have h := update_args_config_default_frame storeA storeA' (by decide) "General" "x"
  rw [h]
  decide

/-- C8: the merge overwrites `use_api`, `disable_mic`, `disable_speaker` and
the two device-index keys only when the corresponding request field is
explicitly present (`true` for booleans, non-null for indices); a false or
absent field leaves the previously stored value untouched. -/
theorem update_args_config_one_directional (args : Args) (c c' : Config)
    (h : update_args_config args c = some c') :
    ((args.api = false →
        configGet c' "General" "use_api" = configGet c "General" "use_api") ∧
     (args.api = true →
        configGet c' "General" "use_api" = some (Val.bool true))) ∧
    ((args.disable_mic = false →
        configGet c' "General" "disable_mic" = configGet c "General" "disable_mic") ∧
     (args.disable_mic = true →
        configGet c' "General" "disable_mic" = some (Val.bool true))) ∧
    ((args.disable_speaker = false →
        configGet c' "General" "disable_speaker" = configGet c "General" "disable_speaker") ∧
     (args.disable_speaker = true →
        configGet c' "General" "disable_speaker" = some (Val.bool true))) ∧
    ((args.mic_device_index = none →
        configGet c' "General" "mic_device_index" = configGet c "General" "mic_device_index") ∧
     (∀ i, args.mic_device_index = some i →
        configGet c' "General" "mic_device_index" = some (Val.int i))) ∧
    ((args.speaker_device_index = none →
        configGet c' "General" "speaker_device_index" =
          configGet c "General" "speaker_device_index") ∧
     (∀ i, args.speaker_device_index = some i →
        configGet c' "General" "speaker_device_index" = some (Val.int i))) := by
  have hu := update_args_config_get h "General" "use_api"
  have hdm := update_args_config_get h "General" "disable_mic"
  have hds := update_args_config_get h "General" "disable_speaker"
  have hmi := update_args_config_get h "General" "mic_device_index"
  have hsi := update_args_config_get h "General" "speaker_device_index"
  simp [mergedGet, overwriteIndex, overwriteFlag, overwriteModel, overwriteApiKey]
    at hu hdm hds hmi hsi
  refine ⟨⟨?_, ?_⟩, ⟨?_, ?_⟩, ⟨?_, ?_⟩, ⟨?_, ?_⟩, ⟨?_, ?_⟩⟩
  · intro ha
    simpa [ha] using hu
  · intro ha
    simpa [ha] using hu
  · intro ha
    simpa [ha] using hdm
  · intro ha
    simpa [ha] using hdm
  · intro ha
    simpa [ha] using hds
  · intro ha
    simpa [ha] using hds
  · intro ha
    simpa [ha] using hmi
  · intro i ha
    simpa [ha] using hmi
  · intro ha
    simpa [ha] using hsi
  · intro i ha
    simpa [ha] using hsi

/-- Witness for C8: a stored `use_api = true` survives a merge with the flag
absent. -/
theorem update_args_config_one_directional_witness :
    configGet storeB' "General" "use_api" = configGet storeB "General" "use_api" :=
  (update_args_config_one_directional defaultArgs storeB storeB' (by decide)).1.1 rfl

/-- A store holding `OpenAI` and `WhisperCpp` but no `General` section. -/
def storeNoGeneral : Config := [("OpenAI", []), ("WhisperCpp", [])]

/-- C10 counterexample: a store missing the `General` section does NOT make
the merge fail — with a request that sets no `General`-bound field the merge
succeeds, refuting "for a Store missing any of these sections the merge
fails". -/
theorem update_args_config_missing_general_succeeds :
    hasSection storeNoGeneral "General" = false ∧
    (update_args_config defaultArgs storeNoGeneral).isSome = true := by decide

/-- C10 (amended): the merge succeeds on every store holding the `OpenAI`,
`WhisperCpp` and `General` sections; a store missing `OpenAI` or `WhisperCpp`
always fails (key lookup error); a store missing only `General` fails exactly
when some `General`-bound request field is set; and the merge never creates a
missing section. -/
theorem update_args_config_totality (args : Args) (c : Config) :
    (hasSection c "OpenAI" = true → hasSection c "WhisperCpp" = true →
      hasSection c "General" = true → (update_args_config args c).isSome = true) ∧
    (hasSection c "OpenAI" = false → update_args_config args c = none) ∧
    (hasSection c "WhisperCpp" = false → update_args_config args c = none) ∧
    (hasSection c "OpenAI" = true → hasSection c "WhisperCpp" = true →
      hasSection c "General" = false →
      ((update_args_config args c).isSome = true ↔
        (args.api = false ∧ args.disable_mic = false ∧ args.mic_device_index = none ∧
         args.disable_speaker = false ∧ args.speaker_device_index = none))) ∧
    (∀ c' s, update_args_config args c = some c' → hasSection c' s = hasSection c s) := by
  refine ⟨?_, ?_, ?_, ?_, ?_⟩
  · intro h1 h2 h3
    obtain ⟨c', e⟩ := update_args_config_total args h1 h2 h3
    simp [e]
  · exact update_args_config_noOpenAI
  · exact update_args_config_noWhisper
  · exact update_args_config_noGeneral_iff args
  · intro c' s e
    exact update_args_config_hasSection e s

/-- Witness for C10's amended theorem at a concrete request and store. -/
theorem update_args_config_totality_witness :
    (update_args_config defaultArgs storeA).isSome = true :=
  (update_args_config_totality defaultArgs storeA).1 (by decide) (by decide) (by decide)

/-- C2: per invocation the batch dispatcher executes at most one of the three
one-shot actions, chosen by the fixed priority list-devices over save-api-key
over transcribe; every executed action ends the process (the dispatcher never
returns control after running an action); with none set it returns control to
the caller. -/
theorem handle_args_batch_tasks_dispatch (args : Args) (env : BatchEnv) (t : BatchTrace)
    (ht : t = handle_args_batch_tasks args env) :
    numActions t ≤ 1 ∧
    (args.list_devices = true →
      t.listedDevices = true ∧ t.saveRes = none ∧ t.transcribed = false ∧
      t.outcome = Outcome.exited 0) ∧
    (args.list_devices = false → ∀ v, args.save_api_key = some v →
      t.saveRes = some (save_api_key v env.loadResult) ∧
      t.listedDevices = false ∧ t.transcribed = false) ∧
    (args.list_devices = false → args.save_api_key = none → ∀ p, args.transcribe = some p →
      t.transcribed = true ∧ t.listedDevices = false ∧ t.saveRes = none) ∧
    (1 ≤ numActions t → t.outcome ≠ Outcome.returned) ∧
    (args.list_devices = false → args.save_api_key = none → args.transcribe = none →
      t.outcome = Outcome.returned ∧ numActions t = 0) := by
  subst ht
  cases hl : args.list_devices with
  | true => simp [handle_args_batch_tasks, numActions, hl]
  | false =>
    cases hs : args.save_api_key with
    | some v =>
      refine ⟨?_, by simp [hl], ?_, by simp [hs], ?_, by simp [hs]⟩
      · simp [handle_args_batch_tasks, numActions, hl, hs]
      · intro _ w hw
        injection hw with hvw
        subst hvw
        simp [handle_args_batch_tasks, hl, hs]
      · intro _
        simp only [handle_args_batch_tasks, hl, hs]
        cases hro : (save_api_key v env.loadResult).outcome <;> simp [hro]
    | none =>
      cases htr : args.transcribe with
      | some p =>
        refine ⟨?_, by simp [hl], by simp [hs], ?_, ?_, by simp [htr]⟩
        · cases hg : env.getsizeResult with
          | error e => simp [handle_args_batch_tasks, numActions, hl, hs, htr, hg]
          | ok n =>
            by_cases hc : (env.results.isSome && decide (0 < env.text.length)) = true <;>
              simp [handle_args_batch_tasks, numActions, hl, hs, htr, hg, hc]
        · intro _ _ q hq
          cases hg : env.getsizeResult with
          | error e => simp [handle_args_batch_tasks, hl, hs, htr, hg]
          | ok n =>
            by_cases hc : (env.results.isSome && decide (0 < env.text.length)) = true <;>
              simp [handle_args_batch_tasks, hl, hs, htr, hg, hc]
        · intro _
          cases hg : env.getsizeResult with
          | error e => simp [handle_args_batch_tasks, hl, hs, htr, hg]
          | ok n =>
            by_cases hc : (env.results.isSome && decide (0 < env.text.length)) = true <;>
              simp [handle_args_batch_tasks, hl, hs, htr, hg, hc]
      | none =>
        simp [handle_args_batch_tasks, numActions, hl, hs, htr]

/-- A sample collaborator environment where every external call succeeds. -/
def envA : BatchEnv where
  loadResult := Except.ok [("OpenAI", [])]
  getsizeResult := Except.ok 100
  results := some "r"
  text := "hello"

/-- Witness for C2: with no action flag set the dispatcher returns control. -/
theorem handle_args_batch_tasks_dispatch_witness :
    (handle_args_batch_tasks defaultArgs envA).outcome = Outcome.returned :=
  ((handle_args_batch_tasks_dispatch defaultArgs envA
      (handle_args_batch_tasks defaultArgs envA) rfl).2.2.2.2.2 rfl rfl rfl).1

/-- C5: when the transcribe action runs (transcribe set, no higher-priority
action) and the transcription result is non-empty, the result text plus a
trailing newline is written to `output_file` when set and to
`"transcription.txt"` otherwise, and the process exits with status 0. -/
theorem transcribe_writes_output (args : Args) (env : BatchEnv) (p : String)
    (hl : args.list_devices = false) (hs : args.save_api_key = none)
    (htr : args.transcribe = some p) (sz : Nat) (hsz : env.getsizeResult = Except.ok sz)
    (hres : env.results.isSome = true) (htext : 0 < env.text.length) :
    ((∀ f, args.output_file = some f →
        (handle_args_batch_tasks args env).wrote = some (f, env.text ++ "\n")) ∧
     (args.output_file = none →
        (handle_args_batch_tasks args env).wrote =
          some ("transcription.txt", env.text ++ "\n"))) ∧
    (handle_args_batch_tasks args env).outcome = Outcome.exited 0 := by
  refine ⟨⟨?_, ?_⟩, ?_⟩
  · intro f hf
    simp [handle_args_batch_tasks, hl, hs, htr, hf, hsz, hres, htext]
  · intro hf
    simp [handle_args_batch_tasks, hl, hs, htr, hf, hsz, hres, htext]
  · cases hf : args.output_file <;>
      simp [handle_args_batch_tasks, hl, hs, htr, hf, hsz, hres, htext]

/-- Witness for C5 at a concrete request and environment. -/
theorem transcribe_writes_output_witness :
    (handle_args_batch_tasks { defaultArgs with transcribe := some "sample.wav" } envA).wrote =
      some ("transcription.txt", "hello\n") ∧
    (handle_args_batch_tasks { defaultArgs with transcribe := some "sample.wav" } envA).outcome =
      Outcome.exited 0 := by
  have h := transcribe_writes_output { defaultArgs with transcribe := some "sample.wav" } envA
    "sample.wav" rfl rfl rfl 100 rfl rfl (by decide)
  exact ⟨h.1.2 rfl, h.2⟩

/-- The request of C6's counterexample: transcribe a non-existent file. -/
def argsMissing : Args := { defaultArgs with transcribe := some "missing.wav" }

/-- C6's counterexample environment: `os.path.getsize("missing.wav")` raises
`FileNotFoundError`, and the engine is never reached. -/
def envMissing : BatchEnv where
  loadResult := Except.ok []
  getsizeResult := Except.error PyErr.fileNotFoundError
  results := none
  text := ""

/-- C6 counterexample: for `transcribe="missing.wav"` (a path that cannot
produce a non-empty transcription result) the code does NOT report its
diagnostic and does not reach `sys.exit(1)` — `os.path.getsize` raises before
the engine runs and the exception propagates uncaught (no output is written
either way). -/
theorem transcribe_missing_file_no_diagnostic :
    (handle_args_batch_tasks argsMissing envMissing).printedDiag = false ∧
    (handle_args_batch_tasks argsMissing envMissing).outcome =
      Outcome.crashed PyErr.fileNotFoundError ∧
    (handle_args_batch_tasks argsMissing envMissing).wrote = none := by decide

/-- C6 (amended): when the transcribe action runs and the size query succeeds
but the transcription result is empty (or the raw result is `None`), the code
reports the not-an-audio-file diagnostic, exits with status 1 and writes no
output file; when the input path cannot even be sized (e.g. it is missing),
the process instead aborts through the uncaught exception, without the
diagnostic — and still writes no output file. -/
theorem transcribe_failure_behavior (args : Args) (env : BatchEnv) (p : String)
    (hl : args.list_devices = false) (hs : args.save_api_key = none)
    (htr : args.transcribe = some p) :
    (∀ sz, env.getsizeResult = Except.ok sz → (env.results = none ∨ env.text.length = 0) →
      (handle_args_batch_tasks args env).printedDiag = true ∧
      (handle_args_batch_tasks args env).outcome = Outcome.exited 1 ∧
      (handle_args_batch_tasks args env).wrote = none) ∧
    (∀ e, env.getsizeResult = Except.error e →
      (handle_args_batch_tasks args env).printedDiag = false ∧
      (handle_args_batch_tasks args env).outcome = Outcome.crashed e ∧
      (handle_args_batch_tasks args env).wrote = none) := by
  constructor
  · intro sz hsz hfail
    rcases hfail with hres | htext
    · simp [handle_args_batch_tasks, hl, hs, htr, hsz, hres]
    · simp [handle_args_batch_tasks, hl, hs, htr, hsz, htext]
  · intro e he
    simp [handle_args_batch_tasks, hl, hs, htr, he]

/-- Witness for C6's amended theorem: an unreadable audio file (size query
succeeds, engine yields nothing) triggers the diagnostic and exit 1. -/
theorem transcribe_failure_behavior_witness :
    (handle_args_batch_tasks { defaultArgs with transcribe := some "bad.wav" }
        { envA with results := none, text := "" }).printedDiag = true ∧
    (handle_args_batch_tasks { defaultArgs with transcribe := some "bad.wav" }
        { envA with results := none, text := "" }).outcome = Outcome.exited 1 ∧
    (handle_args_batch_tasks { defaultArgs with transcribe := some "bad.wav" }
        { envA with results := none, text := "" }).wrote = none :=
  (transcribe_failure_behavior { defaultArgs with transcribe := some "bad.wav" }
      { envA with results := none, text := "" } "bad.wav" rfl rfl rfl).1 100 rfl (Or.inl rfl)

/-- C3: the claim says an unparseable override file makes `save_api_key`
report the failing path and error, then abort with nonzero status. The code's
`except` clause names `ImportError`, but `yaml.load` signals a malformed
document with `yaml.YAMLError` — so on a parse failure the report does NOT
run and the handler's `sys.exit(1)` is never reached: the exception
propagates uncaught. The intended report-and-exit branch is reachable only
for `ImportError`, which the parse step does not raise. -/
theorem save_api_key_yaml_error_uncaught :
    (save_api_key "KEY" (Except.error PyErr.yamlError)).printedFailMsg = false ∧
    (save_api_key "KEY" (Except.error PyErr.yamlError)).outcome =
      Outcome.crashed PyErr.yamlError ∧
    (save_api_key "KEY" (Except.error PyErr.yamlError)).persisted = none ∧
    (save_api_key "KEY" (Except.error PyErr.importError)).printedFailMsg = true ∧
    (save_api_key "KEY" (Except.error PyErr.importError)).outcome = Outcome.exited 1 := by
  decide

/-- C4: persisting a key `V` through the save-api-key action and freshly
loading the override store yields `OpenAI.api_key = V` (round trip; the
load-after-save step is `freshLoadAfterSave`, modelled from the spec); a run
whose request has no persisting key never writes the override store at all,
so a transient `api_key` value reaches only the in-memory configuration,
where the merge places it under `OpenAI.api_key`. -/
theorem save_api_key_roundtrip (V : String) (cfg c' : Config)
    (h : configSetIn cfg "OpenAI" "api_key" (Val.str V) = some c') :
    (freshLoadAfterSave (save_api_key V (Except.ok cfg)) = some c' ∧
     configGet c' "OpenAI" "api_key" = some (Val.str V)) ∧
    (∀ args env, args.save_api_key = none →
      persistedWrite (handle_args_batch_tasks args env) = none) ∧
    (∀ args c c₂ kk, update_args_config args c = some c₂ → args.api_key = some kk →
      configGet c₂ "OpenAI" "api_key" = some (Val.str kk)) := by
  refine ⟨⟨?_, ?_⟩, ?_, ?_⟩
  · simp [save_api_key, freshLoadAfterSave, h]
  · rw [configGet_configSetIn h "OpenAI" "api_key"]
    simp
  · intro args env hsk
    cases hl : args.list_devices with
    | true => simp [handle_args_batch_tasks, persistedWrite, hl]
    | false =>
      cases htr : args.transcribe with
      | none => simp [handle_args_batch_tasks, persistedWrite, hl, hsk, htr]
      | some q =>
        cases hg : env.getsizeResult with
        | error e => simp [handle_args_batch_tasks, persistedWrite, hl, hsk, htr, hg]
        | ok n =>
          by_cases hc : (env.results.isSome && decide (0 < env.text.length)) = true <;>
            simp [handle_args_batch_tasks, persistedWrite, hl, hsk, htr, hg, hc]
  · intro args c c₂ kk hm hk
    have h1 := update_args_config_get hm "OpenAI" "api_key"
    simp [mergedGet, overwriteIndex, overwriteFlag, overwriteModel, overwriteApiKey, hk] at h1
    exact h1

/-- Witness for C4 at `V = "ZZZ"` and a store with an `OpenAI` section. -/
theorem save_api_key_roundtrip_witness :
    freshLoadAfterSave (save_api_key "ZZZ" (Except.ok [("OpenAI", [])])) =
      some [("OpenAI", [("api_key", Val.str "ZZZ")])] :=
  (save_api_key_roundtrip "ZZZ" [("OpenAI", [])]
      [("OpenAI", [("api_key", Val.str "ZZZ")])] (by decide)).1.1

/-- C9: `update_audio_devices` issues a bind-device call for the microphone
(resp. speaker) if and only if the corresponding disable flag is false and
the stored index is not the `-1` sentinel; in particular `disable_mic = true`
with `mic_device_index = 3` binds nothing for the microphone, and when
neither device qualifies no call is made at all. -/
theorem update_audio_devices_binding (c : Config) (dm ds : Bool) (mi si : Int)
    (hdm : configGet c "General" "disable_mic" = some (Val.bool dm))
    (hmi : configGet c "General" "mic_device_index" = some (Val.int mi))
    (hds : configGet c "General" "disable_speaker" = some (Val.bool ds))
    (hsi : configGet c "General" "speaker_device_index" = some (Val.int si)) :
    update_audio_devices c =
      some ((if dm = false ∧ mi ≠ -1 then [mi] else []),
            (if ds = false ∧ si ≠ -1 then [si] else [])) := by
  cases dm <;> cases ds <;>
    by_cases h1 : mi = -1 <;> by_cases h2 : si = -1 <;>
      simp [update_audio_devices, hdm, hmi, hds, hsi, pyTruthy, pyNeInt, pyToInt, h1, h2]

/-- An effective configuration with the microphone disabled but an explicit
microphone index, and an enabled speaker with an index. -/
def storeAudio : Config :=
  [("General", [("disable_mic", Val.bool true), ("mic_device_index", Val.int 3),
                ("disable_speaker", Val.bool false), ("speaker_device_index", Val.int 7)])]

/-- Witness for C9: `disable_mic = true` with `mic_device_index = 3` issues no
microphone bind call. -/
theorem update_audio_devices_binding_witness :
    update_audio_devices storeAudio = some ([], [7]) := by
  have h := update_audio_devices_binding storeAudio true false 3 7
    (by decide) (by decide) (by decide) (by decide)
  rw [h]
  decide
